import Mathlib

/-!
Verification of the GrocerySalesAnalysis preprocessing and customer
segmentation scripts (`data_preprocessing.py`, `customer_segmentation.py`).

Tables are modelled as lists of rows; a row is a total map from column name
to an optional cell.  A cell value of `none` models a missing entry (pandas
`NaN` / `NaT`); cell values themselves are modelled as integers: the scripts
only ever compare, add, subtract and multiply cell values — never divide
them — so an integer carrier is adequate for every property below.  String
valued columns (`CountryName`, `CityName`, names of employees, ...) are only
carried along, selected and written out, never compared or computed with.
Dates are modelled as whole-day counts (`pd.to_datetime` of a date string is
a midnight timestamp), so `timedelta.days` of a date difference is the
difference itself.  The clustering stage, which does divide (min-max scaling
and centroid means), works over rationals.
-/

set_option autoImplicit false

namespace GrocerySales

/-- A cell of a loaded table: `none` is a missing value (pandas `NaN`). -/
abbrev Cell := Option ℤ

/-- A row of a table: a total map from column name to cell.  Columns that are
not present in the table simply hold `none`. -/
abbrev Row := String → Cell

/-- The row in which every column is missing (used as the right side of a
left merge when no key matches, and as a default). -/
def emptyRow : Row := fun _ => none

/-- A pandas `DataFrame`: an ordered list of column names and a list of rows. -/
structure DataFrame where
  cols : List String
  rows : List Row

/-- Elementwise product of two cells; missing propagates (NaN arithmetic). -/
def cellMul (a b : Cell) : Cell :=
  match a, b with
  | some x, some y => some (x * y)
  | _, _ => none

/-- Elementwise difference of two cells; missing propagates (NaN arithmetic). -/
def cellSub (a b : Cell) : Cell :=
  match a, b with
  | some x, some y => some (x - y)
  | _, _ => none

/-- Combination of a left row with a (matched) right row: the columns brought
in by the right table are read from the right row, everything else from the
left row. -/
def combineRow (lr rr : Row) (rcols : List String) : Row :=
  fun c => if c ∈ rcols then rr c else lr c

/-- The rows of the right table whose key cell equals `v`
(`pd.merge` also matches missing keys with missing keys). -/
def matchesOf (r : DataFrame) (rkey : String) (v : Cell) : List Row :=
  r.rows.filter (fun rr => decide (rr rkey = v))

/-- The block of merged rows a single left row contributes to a left merge:
one combined row per matching right row, or a single null-padded row when no
right row matches. -/
def mergeOneRow (lr : Row) (r : DataFrame) (lkey rkey : String)
    (rcols : List String) : List Row :=
  let ms := matchesOf r rkey (lr lkey)
  if ms.isEmpty then [combineRow lr emptyRow rcols]
  else ms.map (fun rr => combineRow lr rr rcols)

/-- `l.merge(r, left_on=lkey, right_on=rkey, how='left')`.  When the two key
names coincide (`on=`) pandas keeps a single key column, so the right key
column is dropped from the columns the right table contributes. -/
def leftMergeOn (l r : DataFrame) (lkey rkey : String) : DataFrame :=
  let rcols := if lkey = rkey then r.cols.filter (fun c => decide (c ≠ rkey))
               else r.cols
  { cols := l.cols ++ rcols
    rows := l.rows.flatMap (fun lr => mergeOneRow lr r lkey rkey rcols) }

/-- `l.merge(r, on=key, how='left')`. -/
def leftMerge (l r : DataFrame) (key : String) : DataFrame :=
  leftMergeOn l r key key

/-- `df[[c1, ..., cn]]`: column selection. -/
def select (df : DataFrame) (cs : List String) : DataFrame :=
  { cols := cs
    rows := df.rows.map (fun r => fun c => if c ∈ cs then r c else none) }

/-- Line 35 of `data_preprocessing.py`:
`sales.merge(products[['ProductID', 'Price']], on='ProductID', how='left')`. -/
def priceMerged (sales products : DataFrame) : DataFrame :=
  leftMerge sales (select products ["ProductID", "Price"]) "ProductID"

/-- Line 38: `sales['Price'] = sales['Price'].fillna(0)`. -/
def fillPrice (r : Row) : Row :=
  fun c => if c = "Price" then some ((r "Price").getD 0) else r c

/-- Line 41: the recomputation mask,
`(sales['TotalPrice'].isna()) | (sales['TotalPrice'] == 0)`. -/
def totalMask (r : Row) : Bool :=
  match r "TotalPrice" with
  | none => true
  | some t => decide (t = 0)

/-- Line 42: on masked rows `TotalPrice` becomes
`Price * Quantity - Discount` (elementwise, missing propagating). -/
def recalcRow (r : Row) : Row :=
  fun c =>
    if c = "TotalPrice" then
      if totalMask r then
        cellSub (cellMul (r "Price") (r "Quantity")) (r "Discount")
      else r "TotalPrice"
    else r c

/-- `recalculate_total_price` (`data_preprocessing.py`, lines 33–44): merge
with the product price table, fill missing prices with 0, recompute
`TotalPrice` on the rows of the mask. -/
def recalculate_total_price (sales products : DataFrame) : DataFrame :=
  let merged := priceMerged sales products
  { cols := merged.cols
    rows := (merged.rows.map fillPrice).map recalcRow }

/-- `load_csv` (`data_preprocessing.py`, lines 11–24).  The two parse attempts
(semicolon delimiter, then comma delimiter) are passed in as `Except` values:
`Except.error` models a raised exception, which the function converts to
`None`; the comma attempt is only consulted when the semicolon parse yields a
single column. -/
def load_csv (semiParse commaParse : Except String DataFrame) : Option DataFrame :=
  match semiParse with
  | Except.error _ => none
  | Except.ok df =>
    if df.cols.length = 1 then
      match commaParse with
      | Except.error _ => none
      | Except.ok df2 => some df2
    else some df

/-- `create_rfm_table` (lines 49–65): the loaded inputs are `Option`s
(`none` models a failed `load_csv`); a `some` result is the table written to
`cleaned_rfm_analysis.csv`, `none` means nothing is written. -/
def create_rfm_table (sales customers cities countries products : Option DataFrame) :
    Option DataFrame :=
  match sales, customers, cities, countries, products with
  | some sales, some customers, some cities, some countries, some products =>
    let s1 := recalculate_total_price sales products
    let s2 := leftMerge s1 (select customers ["CustomerID", "CityID"]) "CustomerID"
    let s3 := leftMerge s2 (select cities ["CityID", "CountryID"]) "CityID"
    let s4 := leftMerge s3 (select countries ["CountryID", "CountryName"]) "CountryID"
    some (select s4 ["CustomerID", "TotalPrice", "SalesDate", "CityID", "CountryID", "CountryName"])
  | _, _, _, _, _ => none

/-- `create_product_recommendation_table` (lines 68–81). -/
def create_product_recommendation_table (sales products categories : Option DataFrame) :
    Option DataFrame :=
  match sales, products, categories with
  | some sales, some products, some categories =>
    let s1 := recalculate_total_price sales products
    let s2 := leftMerge s1 (select products ["ProductID", "CategoryID"]) "ProductID"
    let s3 := leftMerge s2 (select categories ["CategoryID", "CategoryName"]) "CategoryID"
    some (select s3 ["SalesID", "CustomerID", "ProductID", "CategoryID", "CategoryName", "TotalPrice"])
  | _, _, _ => none

/-- `create_sales_forecasting_table` (lines 84–93). -/
def create_sales_forecasting_table (sales products : Option DataFrame) :
    Option DataFrame :=
  match sales, products with
  | some sales, some products =>
    let s1 := recalculate_total_price sales products
    some (select s1 ["SalesID", "SalesDate", "TotalPrice", "Quantity"])
  | _, _ => none

/-- `create_employee_performance_table` (lines 96–108); the employee merge
uses distinct left and right key columns. -/
def create_employee_performance_table (sales employees products : Option DataFrame) :
    Option DataFrame :=
  match sales, employees, products with
  | some sales, some employees, some products =>
    let s1 := recalculate_total_price sales products
    let s2 := leftMergeOn s1
      (select employees ["EmployeeID", "FirstName", "LastName", "HireDate"])
      "SalesPersonID" "EmployeeID"
    some (select s2 ["SalesID", "SalesPersonID", "FirstName", "LastName", "HireDate", "TotalPrice"])
  | _, _, _ => none

/-- `create_geographical_sales_table` (lines 111–127). -/
def create_geographical_sales_table (sales customers cities countries products : Option DataFrame) :
    Option DataFrame :=
  match sales, customers, cities, countries, products with
  | some sales, some customers, some cities, some countries, some products =>
    let s1 := recalculate_total_price sales products
    let s2 := leftMerge s1 (select customers ["CustomerID", "CityID"]) "CustomerID"
    let s3 := leftMerge s2 (select cities ["CityID", "CountryID", "CityName"]) "CityID"
    let s4 := leftMerge s3 (select countries ["CountryID", "CountryName"]) "CountryID"
    some (select s4 ["SalesID", "SalesDate", "TotalPrice", "CustomerID", "CityID", "CityName",
                     "CountryID", "CountryName"])
  | _, _, _, _, _ => none

/-- Key uniqueness of a lookup table: no two rows share a value in the key
column.  This is the usual well-formedness of the dimension tables
(`products`, `customers`, ...) keyed by their ID column. -/
def keyUnique (df : DataFrame) (key : String) : Prop :=
  (df.rows.map (fun r => r key)).Nodup

instance (df : DataFrame) (key : String) : Decidable (keyUnique df key) := by
  unfold keyUnique
  exact List.nodupDecidable _

/-! Concrete tables used to exercise the definitions. -/

/-- A concrete row built from an association list (absent columns are `none`). -/
def rowOf (l : List (String × Cell)) : Row :=
  fun c => (l.lookup c).getD none

/-- A one-row sales table whose `TotalPrice` is missing. -/
def c1Sales : DataFrame :=
  { cols := ["SalesID", "ProductID", "Quantity", "Discount", "TotalPrice"]
    rows := [rowOf [("SalesID", some 1), ("ProductID", some 7),
                    ("Quantity", some 4), ("Discount", some 1),
                    ("TotalPrice", none)]] }

/-- A one-row product table giving product 7 the price 5. -/
def c1Products : DataFrame :=
  { cols := ["ProductID", "Price"]
    rows := [rowOf [("ProductID", some 7), ("Price", some 5)]] }

/-- A one-row sales table with a present, nonzero `TotalPrice`. -/
def c10Sales : DataFrame :=
  { cols := ["SalesID", "ProductID", "Quantity", "Discount", "TotalPrice"]
    rows := [rowOf [("SalesID", some 1), ("ProductID", some 7),
                    ("Quantity", some 4), ("Discount", some 1),
                    ("TotalPrice", some 33)]] }

/-- A one-row sales table carrying every column the five builders use. -/
def w2Sales : DataFrame :=
  { cols := ["SalesID", "SalesDate", "CustomerID", "ProductID", "SalesPersonID",
             "Quantity", "Discount", "TotalPrice"]
    rows := [rowOf [("SalesID", some 1), ("SalesDate", some 10), ("CustomerID", some 1),
                    ("ProductID", some 7), ("SalesPersonID", some 4), ("Quantity", some 2),
                    ("Discount", some 0), ("TotalPrice", some 8)]] }

/-- A one-row product table with a unique `ProductID`. -/
def w2Products : DataFrame :=
  { cols := ["ProductID", "Price", "CategoryID"]
    rows := [rowOf [("ProductID", some 7), ("Price", some 5), ("CategoryID", some 2)]] }

/-- A one-row customer table with a unique `CustomerID`. -/
def w2Customers : DataFrame :=
  { cols := ["CustomerID", "CityID"]
    rows := [rowOf [("CustomerID", some 1), ("CityID", some 2)]] }

/-- A one-row city table with a unique `CityID`. -/
def w2Cities : DataFrame :=
  { cols := ["CityID", "CountryID", "CityName"]
    rows := [rowOf [("CityID", some 2), ("CountryID", some 3), ("CityName", some 0)]] }

/-- A one-row country table with a unique `CountryID`. -/
def w2Countries : DataFrame :=
  { cols := ["CountryID", "CountryName"]
    rows := [rowOf [("CountryID", some 3), ("CountryName", some 0)]] }

/-- A one-row category table with a unique `CategoryID`. -/
def w2Categories : DataFrame :=
  { cols := ["CategoryID", "CategoryName"]
    rows := [rowOf [("CategoryID", some 2), ("CategoryName", some 0)]] }

/-- A one-row employee table with a unique `EmployeeID`. -/
def w2Employees : DataFrame :=
  { cols := ["EmployeeID", "FirstName", "LastName", "HireDate"]
    rows := [rowOf [("EmployeeID", some 4), ("FirstName", some 0), ("LastName", some 0),
                    ("HireDate", some 0)]] }

/-- A product table in which `ProductID` 7 appears twice (a duplicated key on
the right side of the left merge). -/
def cex2ProductsDup : DataFrame :=
  { cols := ["ProductID", "Price", "CategoryID"]
    rows := [rowOf [("ProductID", some 7), ("Price", some 5), ("CategoryID", some 2)],
             rowOf [("ProductID", some 7), ("Price", some 6), ("CategoryID", some 2)]] }

/-! The segmentation script, `customer_segmentation.py`.  Its input is the
table written by `create_rfm_table` (columns `CustomerID`, `TotalPrice`,
`SalesDate`, ...); dates have been parsed by `pd.to_datetime` and are
modelled as day counts. -/

/-- One output record of `calculate_rfm`: the `CustomerID` group key and the
three aggregated columns.  `Recency` is `none` when a customer has no
non-missing sales date (pandas would propagate `NaT`). -/
structure RFMRec where
  customerID : ℤ
  recency : Option ℤ
  frequency : ℕ
  monetary : ℤ
deriving DecidableEq

/-- The rows of one `groupby('CustomerID')` group. -/
def groupRows (df : DataFrame) (cid : ℤ) : List Row :=
  df.rows.filter (fun r => decide (r "CustomerID" = some cid))

/-- The non-missing sales dates of a list of rows (pandas aggregations skip
`NaT`). -/
def datesOf (rows : List Row) : List ℤ :=
  rows.filterMap (fun r => r "SalesDate")

/-- Line 32: `reference_date = df['SalesDate'].max()`, the most recent
transaction date in the whole dataset. -/
def reference_date (df : DataFrame) : Option ℤ :=
  (datesOf df.rows).max?

/-- The group keys of `groupby('CustomerID')`: the distinct non-missing
customer ids, in sorted order (pandas sorts group keys). -/
def customersOf (df : DataFrame) : List ℤ :=
  ((df.rows.filterMap (fun r => r "CustomerID")).dedup).insertionSort (fun a b => a ≤ b)

/-- The aggregation of lines 35–44 for one customer: recency is
`(reference_date - x.max()).days`, the whole-day difference between the
global reference date and the group's own maximal date; frequency the count
of non-missing dates in the group; monetary the (NaN-skipping) sum of the
group's `TotalPrice`. -/
def rfmOfCustomer (df : DataFrame) (cid : ℤ) : RFMRec :=
  { customerID := cid
    recency :=
      match reference_date df, (datesOf (groupRows df cid)).max? with
      | some rd, some cm => some (rd - cm)
      | _, _ => none
    frequency := (datesOf (groupRows df cid)).length
    monetary := ((groupRows df cid).filterMap (fun r => r "TotalPrice")).sum }

/-- `calculate_rfm` (`customer_segmentation.py`, lines 27–48): one RFM record
per customer group. -/
def calculate_rfm (df : DataFrame) : List RFMRec :=
  (customersOf df).map (rfmOfCustomer df)

/-- One row of the RFM table handed to `cluster_customers` (columns
`Recency`, `Frequency`, `Monetary`, all numeric). -/
structure RFMPoint where
  recency : ℚ
  frequency : ℚ
  monetary : ℚ
deriving DecidableEq

/-- A scaled feature vector. -/
abbrev Point := ℚ × ℚ × ℚ

/-- Minimum of a column (pandas `min` of a nonempty column). -/
def colMin : List ℚ → ℚ
  | [] => 0
  | x :: t => t.foldl min x

/-- Maximum of a column (pandas `max` of a nonempty column). -/
def colMax : List ℚ → ℚ
  | [] => 0
  | x :: t => t.foldl max x

/-- Line 53, per column: `(rfm - rfm.min()) / (rfm.max() - rfm.min())`.
For a constant column the denominator is zero and every entry is `0/0`,
i.e. NaN — modelled as `none`. -/
def minMaxScale (xs : List ℚ) : List (Option ℚ) :=
  xs.map (fun x =>
    if colMax xs = colMin xs then none
    else some ((x - colMin xs) / (colMax xs - colMin xs)))

/-- Line 53 on the whole frame: the three columns scaled independently and
re-assembled rowwise. -/
def scaleRFM (l : List RFMPoint) : List (Option ℚ × Option ℚ × Option ℚ) :=
  (minMaxScale (l.map RFMPoint.recency)).zip
    ((minMaxScale (l.map RFMPoint.frequency)).zip (minMaxScale (l.map RFMPoint.monetary)))

/-- Extraction of a fully present scaled point list; `none` when any entry is
NaN (on which sklearn's `fit_predict` raises instead of returning labels). -/
def seqPoints : List (Option ℚ × Option ℚ × Option ℚ) → Option (List Point)
  | [] => some []
  | (some a, some b, some c) :: t => (seqPoints t).map (fun ps => (a, b, c) :: ps)
  | _ :: _ => none

/-- Squared euclidean distance of two feature vectors. -/
def sqDist (p q : Point) : ℚ :=
  (p.1 - q.1) ^ 2 + (p.2.1 - q.2.1) ^ 2 + (p.2.2 - q.2.2) ^ 2

/-- Index and distance of the nearest centroid (first index wins ties, as in
`argmin`); `none` on an empty centroid list. -/
def nearestAux (p : Point) : List Point → Option (ℕ × ℚ)
  | [] => none
  | c :: rest =>
    match nearestAux p rest with
    | none => some (0, sqDist p c)
    | some (j, d) =>
      if sqDist p c ≤ d then some (0, sqDist p c) else some (j + 1, d)

/-- Index of the nearest centroid. -/
def nearestIdx (p : Point) (cents : List Point) : ℕ :=
  ((nearestAux p cents).map Prod.fst).getD 0

/-- Componentwise mean of a list of feature vectors. -/
def meanPoint (ps : List Point) : Point :=
  ((ps.map (fun p => p.1)).sum / (ps.length : ℚ),
   (ps.map (fun p => p.2.1)).sum / (ps.length : ℚ),
   (ps.map (fun p => p.2.2)).sum / (ps.length : ℚ))

/-- One Lloyd update: each centroid is replaced by the mean of the points
assigned to it (kept unchanged when its cluster is empty). -/
def updateStep (cents : List Point) (pts : List Point) : List Point :=
  (List.range cents.length).map (fun j =>
    let cluster := pts.filter (fun p => decide (nearestIdx p cents = j))
    if cluster.isEmpty then cents.getD j (0, 0, 0) else meanPoint cluster)

/-- Lloyd iteration. -/
def lloyd (pts : List Point) : ℕ → List Point → List Point
  | 0, cents => cents
  | n + 1, cents => lloyd pts n (updateStep cents pts)

/-- `KMeans(n_clusters=k, random_state=42, n_init=10).fit_predict`: k-means
with `k = initCents.length` clusters, modelled as Lloyd iteration from an
initial centroid list (the seeded initialization and iteration count are
parameters), followed by nearest-final-centroid assignment.  A label is the
index of the assigned centroid among the `k` centroids. -/
def fit_predict (initCents : List Point) (iters : ℕ) (pts : List Point) : List ℕ :=
  let cents := lloyd pts iters initCents
  pts.map (fun p => nearestIdx p cents)

/-- `cluster_customers` (`customer_segmentation.py`, lines 50–60): min-max
scale the three RFM columns on a separate frame, run k-means on the scaled
copy, and attach the labels to the original table as the `Cluster` column.
When the scaled frame contains NaN (a constant column), sklearn raises and
no clustered table is produced — modelled as `none`. -/
def cluster_customers (rfm : List RFMPoint) (initCents : List Point) (iters : ℕ) :
    Option (List (RFMPoint × ℕ)) :=
  match seqPoints (scaleRFM rfm) with
  | none => none
  | some pts => some (rfm.zip (fit_predict initCents iters pts))

/-! Concrete inputs for the segmentation claims. -/

/-- Two customers: customer 1 last purchased on day 0, customer 2 on day 5
(the dataset-wide most recent date). -/
def c3Df : DataFrame :=
  { cols := ["CustomerID", "TotalPrice", "SalesDate"]
    rows := [rowOf [("CustomerID", some 1), ("SalesDate", some 0), ("TotalPrice", some 10)],
             rowOf [("CustomerID", some 2), ("SalesDate", some 5), ("TotalPrice", some 20)]] }

/-- One customer with two rows, one of which has a missing `SalesDate`. -/
def c4Df : DataFrame :=
  { cols := ["CustomerID", "TotalPrice", "SalesDate"]
    rows := [rowOf [("CustomerID", some 1), ("SalesDate", some 3), ("TotalPrice", some 4)],
             rowOf [("CustomerID", some 1), ("SalesDate", none), ("TotalPrice", some 6)]] }

/-- A two-customer RFM table with three non-constant columns. -/
def w6RFM : List RFMPoint := [⟨0, 0, 0⟩, ⟨1, 2, 3⟩]

/-- A single initial centroid (`k = 1`). -/
def w6Cents : List Point := [(0, 0, 0)]

/-- The clustered table produced from `w6RFM` and `w6Cents`: with a single
centroid every customer is labelled 0. -/
def w6Out : List (RFMPoint × ℕ) := [(⟨0, 0, 0⟩, 0), (⟨1, 2, 3⟩, 0)]

/-- A one-customer RFM table: every column is constant, so min-max scaling
divides zero by zero. -/
def cex8RFM : List RFMPoint := [⟨1, 2, 3⟩]

end GrocerySales

namespace GrocerySales

/-- `getD` through a `map`, at an in-range index. -/
theorem getD_map_of_lt {α β : Type} (f : α → β) (l : List α) (i : ℕ)
    (h : i < l.length) (d : β) (d' : α) :
    (l.map f).getD i d = f (l.getD i d') := by
  have hm : i < (l.map f).length := by simpa using h
  rw [List.getD_eq_getElem _ _ hm, List.getD_eq_getElem _ _ h, List.getElem_map]

/-- At an in-range index, `getD` does not depend on the default. -/
theorem getD_congr_default {α : Type} (l : List α) (i : ℕ) (h : i < l.length)
    (d d' : α) : l.getD i d = l.getD i d' := by
  rw [List.getD_eq_getElem _ _ h, List.getD_eq_getElem _ _ h]

/-- Filling the price column leaves every other column unchanged. -/
theorem fillPrice_other (r : Row) (c : String) (hc : ¬ c = "Price") :
    fillPrice r c = r c := by
  simp [fillPrice, hc]

/-- Filling the price column does not change the recomputation mask. -/
theorem totalMask_fillPrice (r : Row) : totalMask (fillPrice r) = totalMask r := rfl

/--
C1.  In `recalculate_total_price`, every row of the price-merged sales table
whose `TotalPrice` is missing or zero (the mask) has its `TotalPrice`
recomputed to `Price × Quantity − Discount`, where a missing merged `Price`
is first replaced by zero.
-/
theorem C1_recalculate_total_price (sales products : DataFrame) (i : ℕ)
    (hi : i < (priceMerged sales products).rows.length)
    (hm : totalMask ((priceMerged sales products).rows.getD i emptyRow) = true) :
    ((recalculate_total_price sales products).rows.getD i emptyRow) "TotalPrice" =
      cellSub
        (cellMul (some ((((priceMerged sales products).rows.getD i emptyRow) "Price").getD 0))
                 (((priceMerged sales products).rows.getD i emptyRow) "Quantity"))
        (((priceMerged sales products).rows.getD i emptyRow) "Discount") := by
  set m := (priceMerged sales products).rows.getD i emptyRow with hmdef
  have hlen : (priceMerged sales products).rows.length =
      ((priceMerged sales products).rows.map fillPrice).length := by simp
  have h2 : ((recalculate_total_price sales products).rows).getD i emptyRow =
      recalcRow (fillPrice m) := by
    show (((priceMerged sales products).rows.map fillPrice).map recalcRow).getD i emptyRow = _
    rw [getD_map_of_lt recalcRow _ i (by simpa using hi) emptyRow (fillPrice m),
        getD_map_of_lt fillPrice _ i hi (fillPrice m) m,
        getD_congr_default _ i hi m emptyRow]
  rw [h2]
  show (if ("TotalPrice" : String) = "TotalPrice" then
          if totalMask (fillPrice m) then
            cellSub (cellMul (fillPrice m "Price") (fillPrice m "Quantity"))
              (fillPrice m "Discount")
          else fillPrice m "TotalPrice"
        else fillPrice m "TotalPrice") = _
  rw [if_pos rfl, totalMask_fillPrice, hm, if_pos rfl]
  have hp : fillPrice m "Price" = some ((m "Price").getD 0) := by simp [fillPrice]
  rw [hp, fillPrice_other m "Quantity" (by decide), fillPrice_other m "Discount" (by decide)]

/-- Witness for C1 at a concrete table: product 7 costs 5, quantity 4,
discount 1, so the missing `TotalPrice` becomes 5·4 − 1 = 19. -/
theorem C1_witness :
    totalMask ((priceMerged c1Sales c1Products).rows.getD 0 emptyRow) = true ∧
    ((recalculate_total_price c1Sales c1Products).rows.getD 0 emptyRow) "TotalPrice" =
      cellSub
        (cellMul (some ((((priceMerged c1Sales c1Products).rows.getD 0 emptyRow) "Price").getD 0))
                 (((priceMerged c1Sales c1Products).rows.getD 0 emptyRow) "Quantity"))
        (((priceMerged c1Sales c1Products).rows.getD 0 emptyRow) "Discount") :=
  ⟨by decide, C1_recalculate_total_price c1Sales c1Products 0 (by decide) (by decide)⟩

/--
C10.  `recalculate_total_price` leaves `TotalPrice` unchanged on every
price-merged row whose `TotalPrice` is present and nonzero; only masked rows
are rewritten.
-/
theorem C10_unmasked_rows_unchanged (sales products : DataFrame) (i : ℕ) (t : ℤ)
    (hi : i < (priceMerged sales products).rows.length)
    (ht : ((priceMerged sales products).rows.getD i emptyRow) "TotalPrice" = some t)
    (ht0 : t ≠ 0) :
    ((recalculate_total_price sales products).rows.getD i emptyRow) "TotalPrice" = some t := by
  set m := (priceMerged sales products).rows.getD i emptyRow with hmdef
  have h2 : ((recalculate_total_price sales products).rows).getD i emptyRow =
      recalcRow (fillPrice m) := by
    show (((priceMerged sales products).rows.map fillPrice).map recalcRow).getD i emptyRow = _
    rw [getD_map_of_lt recalcRow _ i (by simpa using hi) emptyRow (fillPrice m),
        getD_map_of_lt fillPrice _ i hi (fillPrice m) m,
        getD_congr_default _ i hi m emptyRow]
  have hmask : totalMask m = false := by
    unfold totalMask
    rw [ht]
    simpa using ht0
  rw [h2]
  show (if ("TotalPrice" : String) = "TotalPrice" then
          if totalMask (fillPrice m) then
            cellSub (cellMul (fillPrice m "Price") (fillPrice m "Quantity"))
              (fillPrice m "Discount")
          else fillPrice m "TotalPrice"
        else fillPrice m "TotalPrice") = _
  rw [if_pos rfl, totalMask_fillPrice, hmask]
  show fillPrice m "TotalPrice" = some t
  rw [fillPrice_other m "TotalPrice" (by decide), ht]

/-- Witness for C10 at a concrete table: a present `TotalPrice` of 33 is kept. -/
theorem C10_witness :
    ((priceMerged c10Sales c1Products).rows.getD 0 emptyRow) "TotalPrice" = some 33 ∧
    ((recalculate_total_price c10Sales c1Products).rows.getD 0 emptyRow) "TotalPrice" = some 33 :=
  ⟨by decide, C10_unmasked_rows_unchanged c10Sales c1Products 0 33 (by decide) (by decide)
    (by decide)⟩

end GrocerySales

namespace GrocerySales

/-- A duplicate-free list all of whose elements are equal has at most one
element. -/
theorem length_le_one_of_nodup_of_all_eq {α : Type} (v : α) :
    ∀ (m : List α), m.Nodup → (∀ x ∈ m, x = v) → m.length ≤ 1 := by
  intro m hm hv
  match m with
  | [] => simp
  | [x] => simp
  | x :: y :: t =>
    exfalso
    rcases List.nodup_cons.mp hm with ⟨hx, _⟩
    apply hx
    rw [hv x (by simp), hv y (by simp)]
    simp

/-- Under key uniqueness, at most one right row matches a given key value. -/
theorem matchesOf_length_le_one (r : DataFrame) (rkey : String) (v : Cell)
    (hu : keyUnique r rkey) : (matchesOf r rkey v).length ≤ 1 := by
  have hsub : ((matchesOf r rkey v).map (fun rr => rr rkey)).Sublist
      (r.rows.map (fun rr => rr rkey)) :=
    List.Sublist.map _ (List.filter_sublist _)
  have hnd : ((matchesOf r rkey v).map (fun rr => rr rkey)).Nodup := hsub.nodup hu
  have hall : ∀ x ∈ (matchesOf r rkey v).map (fun rr => rr rkey), x = v := by
    intro x hx
    rcases List.mem_map.mp hx with ⟨rr, hrr, hxeq⟩
    have hp := List.of_mem_filter hrr
    rw [← hxeq]
    exact of_decide_eq_true hp
  have := length_le_one_of_nodup_of_all_eq v _ hnd hall
  simpa using this

/-- Under key uniqueness, every left row contributes exactly one merged row. -/
theorem mergeOneRow_length (lr : Row) (r : DataFrame) (lkey rkey : String)
    (rcols : List String) (hu : keyUnique r rkey) :
    (mergeOneRow lr r lkey rkey rcols).length = 1 := by
  unfold mergeOneRow
  by_cases h : (matchesOf r rkey (lr lkey)).isEmpty
  · simp [h]
  · rw [if_neg (by simpa using h), List.length_map]
    have h1 : 1 ≤ (matchesOf r rkey (lr lkey)).length := by
      have : matchesOf r rkey (lr lkey) ≠ [] := by
        intro hnil
        rw [hnil] at h
        exact h rfl
      have := List.length_pos.mpr this
      omega
    have h2 := matchesOf_length_le_one r rkey (lr lkey) hu
    omega

/-- Length of a `flatMap` whose blocks all have exactly one element. -/
theorem flatMap_length_of_forall_one {α β : Type} (l : List α) (f : α → List β)
    (h : ∀ a ∈ l, (f a).length = 1) : (l.flatMap f).length = l.length := by
  induction l with
  | nil => rfl
  | cons a t ih =>
    rw [List.flatMap_cons, List.length_append, h a (by simp),
      ih (fun b hb => h b (by simp [hb]))]
    simp [Nat.add_comm]

/-- A left merge against a key-unique right table preserves the number of
left rows. -/
theorem leftMergeOn_rows_length (l r : DataFrame) (lkey rkey : String)
    (hu : keyUnique r rkey) :
    (leftMergeOn l r lkey rkey).rows.length = l.rows.length :=
  flatMap_length_of_forall_one l.rows _
    (fun a _ => mergeOneRow_length a r lkey rkey _ hu)

/-- `leftMerge` version of `leftMergeOn_rows_length`. -/
theorem leftMerge_rows_length (l r : DataFrame) (key : String)
    (hu : keyUnique r key) : (leftMerge l r key).rows.length = l.rows.length :=
  leftMergeOn_rows_length l r key key hu

/-- Column selection keeps the number of rows. -/
theorem select_rows_length (df : DataFrame) (cs : List String) :
    (select df cs).rows.length = df.rows.length := by
  simp [select]

/-- Column selection preserves key uniqueness when the key is selected. -/
theorem keyUnique_select (df : DataFrame) (cs : List String) (key : String)
    (hk : key ∈ cs) (hu : keyUnique df key) : keyUnique (select df cs) key := by
  unfold keyUnique at *
  have heq : (select df cs).rows.map (fun r => r key) = df.rows.map (fun r => r key) := by
    show (df.rows.map _).map _ = _
    rw [List.map_map]
    exact List.map_congr_left (fun r _ => by simp [Function.comp, hk])
  rw [heq]
  exact hu

/-- `recalculate_total_price` keeps the number of sales rows when products
are keyed uniquely. -/
theorem recalc_rows_length (sales products : DataFrame)
    (hu : keyUnique products "ProductID") :
    (recalculate_total_price sales products).rows.length = sales.rows.length := by
  have h1 : keyUnique (select products ["ProductID", "Price"]) "ProductID" :=
    keyUnique_select _ _ _ (by simp) hu
  have h2 : (recalculate_total_price sales products).rows.length =
      (priceMerged sales products).rows.length := by
    simp [recalculate_total_price]
  rw [h2]
  exact leftMergeOn_rows_length _ _ _ _ h1

end GrocerySales

namespace GrocerySales

/-- Reduction of `create_rfm_table` on successfully loaded inputs. -/
theorem create_rfm_table_some_eq (sales customers cities countries products : DataFrame) :
    create_rfm_table (some sales) (some customers) (some cities) (some countries)
        (some products) =
      some (select
        (leftMerge
          (leftMerge
            (leftMerge (recalculate_total_price sales products)
              (select customers ["CustomerID", "CityID"]) "CustomerID")
            (select cities ["CityID", "CountryID"]) "CityID")
          (select countries ["CountryID", "CountryName"]) "CountryID")
        ["CustomerID", "TotalPrice", "SalesDate", "CityID", "CountryID", "CountryName"]) := rfl

/-- Reduction of `create_product_recommendation_table` on loaded inputs. -/
theorem create_product_recommendation_table_some_eq (sales products categories : DataFrame) :
    create_product_recommendation_table (some sales) (some products) (some categories) =
      some (select
        (leftMerge
          (leftMerge (recalculate_total_price sales products)
            (select products ["ProductID", "CategoryID"]) "ProductID")
          (select categories ["CategoryID", "CategoryName"]) "CategoryID")
        ["SalesID", "CustomerID", "ProductID", "CategoryID", "CategoryName", "TotalPrice"]) := rfl

/-- Reduction of `create_sales_forecasting_table` on loaded inputs. -/
theorem create_sales_forecasting_table_some_eq (sales products : DataFrame) :
    create_sales_forecasting_table (some sales) (some products) =
      some (select (recalculate_total_price sales products)
        ["SalesID", "SalesDate", "TotalPrice", "Quantity"]) := rfl

/-- Reduction of `create_employee_performance_table` on loaded inputs. -/
theorem create_employee_performance_table_some_eq (sales employees products : DataFrame) :
    create_employee_performance_table (some sales) (some employees) (some products) =
      some (select
        (leftMergeOn (recalculate_total_price sales products)
          (select employees ["EmployeeID", "FirstName", "LastName", "HireDate"])
          "SalesPersonID" "EmployeeID")
        ["SalesID", "SalesPersonID", "FirstName", "LastName", "HireDate", "TotalPrice"]) := rfl

/-- Reduction of `create_geographical_sales_table` on loaded inputs. -/
theorem create_geographical_sales_table_some_eq
    (sales customers cities countries products : DataFrame) :
    create_geographical_sales_table (some sales) (some customers) (some cities)
        (some countries) (some products) =
      some (select
        (leftMerge
          (leftMerge
            (leftMerge (recalculate_total_price sales products)
              (select customers ["CustomerID", "CityID"]) "CustomerID")
            (select cities ["CityID", "CountryID", "CityName"]) "CityID")
          (select countries ["CountryID", "CountryName"]) "CountryID")
        ["SalesID", "SalesDate", "TotalPrice", "CustomerID", "CityID", "CityName",
         "CountryID", "CountryName"]) := rfl

/--
C2 (amended).  Provided every lookup table is keyed uniquely (no duplicate
`ProductID`, `CustomerID`, `CityID`, `CountryID`, `CategoryID`, `EmployeeID`),
each of the five table-builder functions, run on loaded input tables, emits a
table whose columns are exactly the documented output column list and whose
row count equals (hence never exceeds) the row count of the input sales
table.
-/
theorem C2_table_builders
    (sales customers cities countries products categories employees : DataFrame)
    (hup : keyUnique products "ProductID")
    (huc : keyUnique customers "CustomerID")
    (huci : keyUnique cities "CityID")
    (huco : keyUnique countries "CountryID")
    (hucat : keyUnique categories "CategoryID")
    (hue : keyUnique employees "EmployeeID") :
    ((create_rfm_table (some sales) (some customers) (some cities) (some countries)
        (some products)).map DataFrame.cols =
        some ["CustomerID", "TotalPrice", "SalesDate", "CityID", "CountryID", "CountryName"] ∧
      (create_rfm_table (some sales) (some customers) (some cities) (some countries)
        (some products)).map (fun d => d.rows.length) = some sales.rows.length) ∧
    ((create_product_recommendation_table (some sales) (some products)
        (some categories)).map DataFrame.cols =
        some ["SalesID", "CustomerID", "ProductID", "CategoryID", "CategoryName", "TotalPrice"] ∧
      (create_product_recommendation_table (some sales) (some products)
        (some categories)).map (fun d => d.rows.length) = some sales.rows.length) ∧
    ((create_sales_forecasting_table (some sales) (some products)).map DataFrame.cols =
        some ["SalesID", "SalesDate", "TotalPrice", "Quantity"] ∧
      (create_sales_forecasting_table (some sales) (some products)).map
        (fun d => d.rows.length) = some sales.rows.length) ∧
    ((create_employee_performance_table (some sales) (some employees)
        (some products)).map DataFrame.cols =
        some ["SalesID", "SalesPersonID", "FirstName", "LastName", "HireDate", "TotalPrice"] ∧
      (create_employee_performance_table (some sales) (some employees)
        (some products)).map (fun d => d.rows.length) = some sales.rows.length) ∧
    ((create_geographical_sales_table (some sales) (some customers) (some cities)
        (some countries) (some products)).map DataFrame.cols =
        some ["SalesID", "SalesDate", "TotalPrice", "CustomerID", "CityID", "CityName",
              "CountryID", "CountryName"] ∧
      (create_geographical_sales_table (some sales) (some customers) (some cities)
        (some countries) (some products)).map (fun d => d.rows.length) =
        some sales.rows.length) := by
  have ec : keyUnique (select customers ["CustomerID", "CityID"]) "CustomerID" :=
    keyUnique_select _ _ _ (by simp) huc
  have eci : keyUnique (select cities ["CityID", "CountryID"]) "CityID" :=
    keyUnique_select _ _ _ (by simp) huci
  have eci3 : keyUnique (select cities ["CityID", "CountryID", "CityName"]) "CityID" :=
    keyUnique_select _ _ _ (by simp) huci
  have eco : keyUnique (select countries ["CountryID", "CountryName"]) "CountryID" :=
    keyUnique_select _ _ _ (by simp) huco
  have ep2 : keyUnique (select products ["ProductID", "CategoryID"]) "ProductID" :=
    keyUnique_select _ _ _ (by simp) hup
  have ecat : keyUnique (select categories ["CategoryID", "CategoryName"]) "CategoryID" :=
    keyUnique_select _ _ _ (by simp) hucat
  have ee : keyUnique (select employees ["EmployeeID", "FirstName", "LastName", "HireDate"])
      "EmployeeID" := keyUnique_select _ _ _ (by simp) hue
  refine ⟨⟨rfl, ?_⟩, ⟨rfl, ?_⟩, ⟨rfl, ?_⟩, ⟨rfl, ?_⟩, ⟨rfl, ?_⟩⟩
  · rw [create_rfm_table_some_eq, Option.map_some', select_rows_length,
      leftMerge_rows_length _ _ _ eco, leftMerge_rows_length _ _ _ eci,
      leftMerge_rows_length _ _ _ ec, recalc_rows_length _ _ hup]
  · rw [create_product_recommendation_table_some_eq, Option.map_some', select_rows_length,
      leftMerge_rows_length _ _ _ ecat, leftMerge_rows_length _ _ _ ep2,
      recalc_rows_length _ _ hup]
  · rw [create_sales_forecasting_table_some_eq, Option.map_some', select_rows_length,
      recalc_rows_length _ _ hup]
  · rw [create_employee_performance_table_some_eq, Option.map_some', select_rows_length,
      leftMergeOn_rows_length _ _ _ _ ee, recalc_rows_length _ _ hup]
  · rw [create_geographical_sales_table_some_eq, Option.map_some', select_rows_length,
      leftMerge_rows_length _ _ _ eco, leftMerge_rows_length _ _ _ eci3,
      leftMerge_rows_length _ _ _ ec, recalc_rows_length _ _ hup]

/-- Counterexample to C2 as stated: with a duplicated `ProductID` in the
product table, `create_rfm_table` emits two rows from a one-row sales table,
so a left join can increase the number of sales rows. -/
theorem C2_counterexample :
    (create_rfm_table (some w2Sales) (some w2Customers) (some w2Cities) (some w2Countries)
        (some cex2ProductsDup)).map (fun d => d.rows.length) = some 2 ∧
    w2Sales.rows.length = 1 ∧ ¬ (2 ≤ 1) := by decide

/-- Witness for C2 at concrete one-row tables with unique keys. -/
theorem C2_witness :
    (create_rfm_table (some w2Sales) (some w2Customers) (some w2Cities) (some w2Countries)
        (some w2Products)).map (fun d => d.rows.length) = some w2Sales.rows.length ∧
    (create_geographical_sales_table (some w2Sales) (some w2Customers) (some w2Cities)
        (some w2Countries) (some w2Products)).map DataFrame.cols =
      some ["SalesID", "SalesDate", "TotalPrice", "CustomerID", "CityID", "CityName",
            "CountryID", "CountryName"] :=
  ⟨(C2_table_builders w2Sales w2Customers w2Cities w2Countries w2Products w2Categories
      w2Employees (by decide) (by decide) (by decide) (by decide) (by decide)
      (by decide)).1.2,
   (C2_table_builders w2Sales w2Customers w2Cities w2Countries w2Products w2Categories
      w2Employees (by decide) (by decide) (by decide) (by decide) (by decide)
      (by decide)).2.2.2.2.1⟩

/--
C7.  A failed load yields `None` rather than an exception (for both the
semicolon attempt and the comma fallback), and every table-builder function
that receives a `None` input aborts: it returns `None` and writes nothing.
-/
theorem C7_null_propagation :
    (∀ (msg : String) (comma : Except String DataFrame),
        load_csv (Except.error msg) comma = none) ∧
    (∀ (df : DataFrame) (msg : String), df.cols.length = 1 →
        load_csv (Except.ok df) (Except.error msg) = none) ∧
    (∀ s c ci co p : Option DataFrame,
        s = none ∨ c = none ∨ ci = none ∨ co = none ∨ p = none →
        create_rfm_table s c ci co p = none) ∧
    (∀ s p cat : Option DataFrame, s = none ∨ p = none ∨ cat = none →
        create_product_recommendation_table s p cat = none) ∧
    (∀ s p : Option DataFrame, s = none ∨ p = none →
        create_sales_forecasting_table s p = none) ∧
    (∀ s e p : Option DataFrame, s = none ∨ e = none ∨ p = none →
        create_employee_performance_table s e p = none) ∧
    (∀ s c ci co p : Option DataFrame,
        s = none ∨ c = none ∨ ci = none ∨ co = none ∨ p = none →
        create_geographical_sales_table s c ci co p = none) := by
  refine ⟨fun msg comma => rfl, fun df msg h1 => by simp [load_csv, h1],
    ?_, ?_, ?_, ?_, ?_⟩
  · intro s c ci co p h
    rcases s with _ | s <;> rcases c with _ | c <;> rcases ci with _ | ci <;>
      rcases co with _ | co <;> rcases p with _ | p <;>
      first
        | rfl
        | exact absurd h (by simp)
  · intro s p cat h
    rcases s with _ | s <;> rcases p with _ | p <;> rcases cat with _ | cat <;>
      first
        | rfl
        | exact absurd h (by simp)
  · intro s p h
    rcases s with _ | s <;> rcases p with _ | p <;>
      first
        | rfl
        | exact absurd h (by simp)
  · intro s e p h
    rcases s with _ | s <;> rcases e with _ | e <;> rcases p with _ | p <;>
      first
        | rfl
        | exact absurd h (by simp)
  · intro s c ci co p h
    rcases s with _ | s <;> rcases c with _ | c <;> rcases ci with _ | ci <;>
      rcases co with _ | co <;> rcases p with _ | p <;>
      first
        | rfl
        | exact absurd h (by simp)

/-- Witness for C7: a raised read error becomes `None`, and a builder given a
`None` sales table yields `None`. -/
theorem C7_witness :
    load_csv (Except.error "read failure") (Except.ok w2Products) = none ∧
    create_rfm_table none (some w2Customers) (some w2Cities) (some w2Countries)
      (some w2Products) = none :=
  ⟨C7_null_propagation.1 "read failure" (Except.ok w2Products),
   C7_null_propagation.2.2.1 none (some w2Customers) (some w2Cities) (some w2Countries)
     (some w2Products) (Or.inl rfl)⟩

end GrocerySales

namespace GrocerySales

/--
Counterexample to C3 as stated: `calculate_rfm` measures recency against the
dataset-wide reference date, so customer 1, whose last purchase (day 0)
precedes the dataset maximum (day 5), gets recency 5, not 0.
-/
theorem C3_counterexample :
    ¬ (∀ o ∈ calculate_rfm c3Df, o.recency = some 0) := by decide

/--
C3 (amended).  In `calculate_rfm`, a customer's recency is the day difference
between the dataset-wide reference date (the maximum sales date of the whole
input) and the customer's own maximum sales date; it is zero exactly for the
customers whose last transaction attains the dataset-wide maximum.  Stated
positively: for every customer whose group maximum equals the reference
date, the computed `Recency` is 0.
-/
theorem C3_recency_zero_at_reference (df : DataFrame) (o : RFMRec)
    (ho : o ∈ calculate_rfm df)
    (hmax : (datesOf (groupRows df o.customerID)).max? = reference_date df)
    (hsome : (reference_date df).isSome) :
    o.recency = some 0 := by
  have ho' : o ∈ (customersOf df).map (rfmOfCustomer df) := ho
  rcases List.mem_map.mp ho' with ⟨cid, _hc, rfl⟩
  rcases Option.isSome_iff_exists.mp hsome with ⟨rd, hrd⟩
  simp only [rfmOfCustomer] at hmax ⊢
  rw [hmax, hrd]
  show some (rd - rd) = some 0
  rw [sub_self]

/-- Witness for C3 (amended) at `c3Df`: customer 2 holds the dataset-wide
maximum date, so its recency is 0. -/
theorem C3_witness : (rfmOfCustomer c3Df 2).recency = some 0 :=
  C3_recency_zero_at_reference c3Df (rfmOfCustomer c3Df 2) (by decide) (by decide) (by decide)

/-- Length of a `filterMap` after a `filter`, as a conjunctive `countP`. -/
theorem length_filterMap_filter {α β : Type} (p : α → Bool) (g : α → Option β) :
    ∀ l : List α,
      ((l.filter p).filterMap g).length = l.countP (fun a => p a && (g a).isSome) := by
  intro l
  induction l with
  | nil => rfl
  | cons a t ih =>
    by_cases hp : p a
    · rw [List.filter_cons_of_pos hp, List.filterMap_cons, List.countP_cons]
      cases hg : g a with
      | none => simp [hg, ih, hp]
      | some b => simp [hg, ih, hp]
    · rw [List.filter_cons_of_neg hp, List.countP_cons]
      simp only [Bool.and_eq_true] at *
      simp [ih, hp]

/--
Counterexample to C4 as stated: a customer with two rows, one of which has a
missing `SalesDate`, gets frequency 1 (pandas `count` counts non-null
entries), not 2 (the number of its rows).
-/
theorem C4_counterexample :
    ¬ (∀ o ∈ calculate_rfm c4Df, o.frequency =
        (c4Df.rows.filter (fun r => decide (r "CustomerID" = some o.customerID))).length) := by
  decide

/--
C4 (amended).  In `calculate_rfm`, every customer's `Frequency` equals the
number of that customer's rows with a non-missing `SalesDate` (the pandas
`count` aggregation counts non-null values only).
-/
theorem C4_frequency_counts_dated_rows (df : DataFrame) (o : RFMRec)
    (ho : o ∈ calculate_rfm df) :
    o.frequency = df.rows.countP
      (fun r => decide (r "CustomerID" = some o.customerID) && (r "SalesDate").isSome) := by
  have ho' : o ∈ (customersOf df).map (rfmOfCustomer df) := ho
  rcases List.mem_map.mp ho' with ⟨cid, _hc, rfl⟩
  show (datesOf (groupRows df cid)).length = _
  exact length_filterMap_filter _ _ df.rows

/-- Witness for C4 (amended) at `c4Df`. -/
theorem C4_witness :
    (rfmOfCustomer c4Df 1).frequency = c4Df.rows.countP
      (fun r => decide (r "CustomerID" = some (rfmOfCustomer c4Df 1).customerID) &&
        (r "SalesDate").isSome) :=
  C4_frequency_counts_dated_rows c4Df (rfmOfCustomer c4Df 1) (by decide)

/-- The sum of the present values of a column equals the sum over all rows
with missing entries contributing zero. -/
theorem sum_filterMap_eq_sum_getD {α : Type} (g : α → Option ℤ) :
    ∀ l : List α, (l.filterMap g).sum = (l.map (fun a => (g a).getD 0)).sum := by
  intro l
  induction l with
  | nil => rfl
  | cons a t ih =>
    rw [List.filterMap_cons, List.map_cons, List.sum_cons]
    cases hg : g a with
    | none => simp [ih]
    | some b => simp [List.sum_cons, ih]

/--
C5.  In `calculate_rfm`, every customer's `Monetary` equals the sum of the
`TotalPrice` column over all of that customer's rows (pandas `sum` skips
missing entries, so a missing `TotalPrice` contributes zero to the column
sum).
-/
theorem C5_monetary_sums_total_price (df : DataFrame) (o : RFMRec)
    (ho : o ∈ calculate_rfm df) :
    o.monetary =
      ((groupRows df o.customerID).map (fun r => ((r "TotalPrice").getD 0 : ℤ))).sum := by
  have ho' : o ∈ (customersOf df).map (rfmOfCustomer df) := ho
  rcases List.mem_map.mp ho' with ⟨cid, _hc, rfl⟩
  show ((groupRows df cid).filterMap (fun r => r "TotalPrice")).sum = _
  exact sum_filterMap_eq_sum_getD _ (groupRows df cid)

/-- Witness for C5 at `c4Df`: customer 1's monetary value is 4 + 6 = 10. -/
theorem C5_witness :
    (rfmOfCustomer c4Df 1).monetary =
      ((groupRows c4Df (rfmOfCustomer c4Df 1).customerID).map
        (fun r => ((r "TotalPrice").getD 0 : ℤ))).sum :=
  C5_monetary_sums_total_price c4Df (rfmOfCustomer c4Df 1) (by decide)

end GrocerySales

namespace GrocerySales

/-- `nearestAux` always yields a result on a nonempty centroid list. -/
theorem nearestAux_isSome (p c : Point) (rest : List Point) :
    (nearestAux p (c :: rest)).isSome = true := by
  cases h : nearestAux p rest with
  | none => simp [nearestAux, h]
  | some jd =>
    rcases jd with ⟨j, d⟩
    by_cases hle : sqDist p c ≤ d <;> simp [nearestAux, h, hle]

/-- The index returned by `nearestAux` is an index into the centroid list. -/
theorem nearestAux_lt (p : Point) :
    ∀ (cents : List Point) (j : ℕ) (d : ℚ),
      nearestAux p cents = some (j, d) → j < cents.length := by
  intro cents
  induction cents with
  | nil => intro j d h; simp [nearestAux] at h
  | cons c rest ih =>
    intro j d h
    simp only [nearestAux] at h
    cases hrec : nearestAux p rest with
    | none =>
      rw [hrec] at h
      injection h with h'
      cases h'
      simp
    | some jd =>
      rcases jd with ⟨j', d'⟩
      rw [hrec] at h
      have h2 : (if sqDist p c ≤ d' then some (0, sqDist p c)
          else some (j' + 1, d')) = some (j, d) := h
      by_cases hle : sqDist p c ≤ d'
      · rw [if_pos hle] at h2
        injection h2 with h'
        injection h' with hj hd
        subst hj
        simp
      · rw [if_neg hle] at h2
        injection h2 with h'
        injection h' with hj hd
        subst hj
        simpa using Nat.succ_lt_succ (ih j' d' hrec)

/-- The nearest-centroid index is below the number of centroids. -/
theorem nearestIdx_lt (p : Point) (cents : List Point) (h : cents ≠ []) :
    nearestIdx p cents < cents.length := by
  rcases cents with _ | ⟨c, rest⟩
  · exact absurd rfl h
  · have hs := nearestAux_isSome p c rest
    rcases Option.isSome_iff_exists.mp hs with ⟨jd, hjd⟩
    rcases jd with ⟨j, d⟩
    have hlt := nearestAux_lt p (c :: rest) j d hjd
    show ((nearestAux p (c :: rest)).map Prod.fst).getD 0 < (c :: rest).length
    rw [hjd]
    exact hlt

/-- A Lloyd update keeps the number of centroids. -/
theorem updateStep_length (cents pts : List Point) :
    (updateStep cents pts).length = cents.length := by
  simp [updateStep]

/-- Lloyd iteration keeps the number of centroids. -/
theorem lloyd_length (pts : List Point) :
    ∀ (n : ℕ) (cents : List Point), (lloyd pts n cents).length = cents.length := by
  intro n
  induction n with
  | zero => intro cents; rfl
  | succ n ih =>
    intro cents
    show (lloyd pts n (updateStep cents pts)).length = cents.length
    rw [ih, updateStep_length]

/-- `fit_predict` emits one label per point. -/
theorem fit_predict_length (initCents : List Point) (iters : ℕ) (pts : List Point) :
    (fit_predict initCents iters pts).length = pts.length := by
  simp [fit_predict]

/-- Min-max scaling keeps the column length. -/
theorem minMaxScale_length (xs : List ℚ) : (minMaxScale xs).length = xs.length := by
  simp [minMaxScale]

/-- Scaling the three columns keeps the number of rows. -/
theorem scaleRFM_length (l : List RFMPoint) : (scaleRFM l).length = l.length := by
  simp [scaleRFM, minMaxScale]

/-- A successfully extracted point list has the length of the scaled table. -/
theorem seqPoints_length :
    ∀ (l : List (Option ℚ × Option ℚ × Option ℚ)) (pts : List Point),
      seqPoints l = some pts → pts.length = l.length := by
  intro l
  induction l with
  | nil =>
    intro pts h
    have h' : some ([] : List Point) = some pts := h
    injection h' with h''
    rw [← h'']
    rfl
  | cons a t ih =>
    intro pts h
    rcases a with ⟨_ | va, _ | vb, _ | vc⟩ <;> try exact Option.noConfusion h
    have h' : (seqPoints t).map (fun ps => (va, vb, vc) :: ps) = some pts := h
    cases hrec : seqPoints t with
    | none => rw [hrec] at h'; exact Option.noConfusion h'
    | some ps =>
      rw [hrec] at h'
      injection h' with h''
      rw [← h'']
      simp [ih ps hrec]

/--
C6.  Whenever `cluster_customers` produces a clustered table (configured with
`k = initCents.length ≥ 1` clusters), every value of the `Cluster` column is
a natural number strictly below `k`, i.e. an integer in `[0, k−1]`.
-/
theorem C6_cluster_labels_in_range (rfm : List RFMPoint) (initCents : List Point)
    (iters : ℕ) (out : List (RFMPoint × ℕ)) (hk : initCents ≠ [])
    (hout : cluster_customers rfm initCents iters = some out) :
    ∀ pr ∈ out, pr.2 < initCents.length := by
  intro pr hpr
  unfold cluster_customers at hout
  cases hseq : seqPoints (scaleRFM rfm) with
  | none => rw [hseq] at hout; exact Option.noConfusion hout
  | some pts =>
    rw [hseq] at hout
    injection hout with h''
    rw [← h''] at hpr
    rcases pr with ⟨q, lab⟩
    have hlab : lab ∈ fit_predict initCents iters pts := (List.of_mem_zip hpr).2
    have hlab2 : lab ∈ pts.map (fun p => nearestIdx p (lloyd pts iters initCents)) := hlab
    rcases List.mem_map.mp hlab2 with ⟨p, _hp, hpe⟩
    have hne : lloyd pts iters initCents ≠ [] := by
      intro hnil
      have hl := lloyd_length pts iters initCents
      rw [hnil] at hl
      exact hk (List.eq_nil_of_length_eq_zero hl.symm)
    have hlt := nearestIdx_lt p (lloyd pts iters initCents) hne
    rw [lloyd_length] at hlt
    show lab < initCents.length
    rw [← hpe]
    exact hlt

/-- Witness for C6: clustering the concrete two-customer table with one
centroid labels customer ⟨1, 2, 3⟩ with 0 < 1. -/
theorem C6_witness : ((⟨1, 2, 3⟩ : RFMPoint), 0).2 < w6Cents.length :=
  C6_cluster_labels_in_range w6RFM w6Cents 1 w6Out (by decide) (by decide)
    ((⟨1, 2, 3⟩ : RFMPoint), 0) (by decide)

/--
C9.  `cluster_customers` only attaches the `Cluster` column: whenever it
produces a clustered table, projecting the cluster labels away returns
exactly the input RFM table — every customer's `Recency`, `Frequency` and
`Monetary` are unchanged (the scaling happened on a separate copy).
-/
theorem C9_cluster_preserves_rfm (rfm : List RFMPoint) (initCents : List Point)
    (iters : ℕ) (out : List (RFMPoint × ℕ))
    (hout : cluster_customers rfm initCents iters = some out) :
    out.map Prod.fst = rfm := by
  unfold cluster_customers at hout
  cases hseq : seqPoints (scaleRFM rfm) with
  | none => rw [hseq] at hout; exact Option.noConfusion hout
  | some pts =>
    rw [hseq] at hout
    injection hout with h''
    rw [← h'']
    have hlen : rfm.length ≤ (fit_predict initCents iters pts).length := by
      rw [fit_predict_length, seqPoints_length (scaleRFM rfm) pts hseq, scaleRFM_length]
    exact List.map_fst_zip rfm _ hlen

/-- Witness for C9 at the concrete two-customer table. -/
theorem C9_witness : w6Out.map Prod.fst = w6RFM :=
  C9_cluster_preserves_rfm w6RFM w6Cents 1 w6Out (by decide)

/-- Every element of a nonempty column is at least the running `min` fold. -/
theorem foldl_min_le (t : List ℚ) :
    ∀ (x y : ℚ), y ∈ x :: t → t.foldl min x ≤ y := by
  induction t with
  | nil =>
    intro x y hy
    rw [List.mem_singleton] at hy
    subst hy
    exact le_refl y
  | cons a t' ih =>
    intro x y hy
    rw [List.foldl_cons]
    rcases List.mem_cons.mp hy with rfl | hy'
    · exact (ih (min y a) (min y a) (by simp)).trans (min_le_left y a)
    · rcases List.mem_cons.mp hy' with rfl | hy''
      · exact (ih (min x y) (min x y) (by simp)).trans (min_le_right x y)
      · exact ih (min x a) y (List.mem_cons.mpr (Or.inr hy''))

/-- Every element of a nonempty column is at most the running `max` fold. -/
theorem le_foldl_max (t : List ℚ) :
    ∀ (x y : ℚ), y ∈ x :: t → y ≤ t.foldl max x := by
  induction t with
  | nil =>
    intro x y hy
    rw [List.mem_singleton] at hy
    subst hy
    exact le_refl y
  | cons a t' ih =>
    intro x y hy
    rw [List.foldl_cons]
    rcases List.mem_cons.mp hy with rfl | hy'
    · exact (max_le_iff.mp (le_refl (max y a))).1.trans (ih (max y a) (max y a) (by simp))
    · rcases List.mem_cons.mp hy' with rfl | hy''
      · exact (max_le_iff.mp (le_refl (max x y))).2.trans (ih (max x y) (max x y) (by simp))
      · exact ih (max x a) y (List.mem_cons.mpr (Or.inr hy''))

/-- The column minimum bounds every column entry from below. -/
theorem colMin_le (xs : List ℚ) (x : ℚ) (hx : x ∈ xs) : colMin xs ≤ x := by
  rcases xs with _ | ⟨a, t⟩
  · exact absurd hx (List.not_mem_nil x)
  · exact foldl_min_le t a x hx

/-- The column maximum bounds every column entry from above. -/
theorem le_colMax (xs : List ℚ) (x : ℚ) (hx : x ∈ xs) : x ≤ colMax xs := by
  rcases xs with _ | ⟨a, t⟩
  · exact absurd hx (List.not_mem_nil x)
  · exact le_foldl_max t a x hx

/--
C8 (amended).  The scaling `cluster_customers` applies before k-means is
columnwise min-max normalization: provided a column is not constant
(`max ≠ min`), each scaled entry equals `(x − min) / (max − min)` and lies
in `[0, 1]`.  (For a constant column the code computes `0/0`, i.e. NaN,
which is not a value of `[0, 1]` — see the counterexample.)
-/
theorem C8_minmax_scaling (l : List RFMPoint) (xs : List ℚ) (i : ℕ) (x : ℚ)
    (hx : xs[i]? = some x) (hne : colMax xs ≠ colMin xs) :
    scaleRFM l = (minMaxScale (l.map RFMPoint.recency)).zip
        ((minMaxScale (l.map RFMPoint.frequency)).zip
          (minMaxScale (l.map RFMPoint.monetary))) ∧
    (minMaxScale xs)[i]? = some (some ((x - colMin xs) / (colMax xs - colMin xs))) ∧
    0 ≤ (x - colMin xs) / (colMax xs - colMin xs) ∧
    (x - colMin xs) / (colMax xs - colMin xs) ≤ 1 := by
  have hmem : x ∈ xs := List.getElem?_mem hx
  have hmin : colMin xs ≤ x := colMin_le xs x hmem
  have hmax : x ≤ colMax xs := le_colMax xs x hmem
  have hlt : colMin xs < colMax xs := lt_of_le_of_ne (hmin.trans hmax) (Ne.symm hne)
  have hpos : 0 < colMax xs - colMin xs := sub_pos.mpr hlt
  refine ⟨rfl, ?_, ?_, ?_⟩
  · show (xs.map _)[i]? = _
    rw [List.getElem?_map, hx]
    simp [hne]
  · exact div_nonneg (sub_nonneg.mpr hmin) (le_of_lt hpos)
  · rw [div_le_one hpos]
    exact sub_le_sub_right hmax _

/-- Counterexample to C8 as stated: in the one-customer RFM table every
column is constant, `max − min` is zero, and every scaled entry is NaN
(`none`) rather than a rational in `[0, 1]`. -/
theorem C8_counterexample :
    ¬ (∀ t ∈ scaleRFM cex8RFM, ∃ q : ℚ, t.1 = some q ∧ 0 ≤ q ∧ q ≤ 1) := by
  intro h
  have hmem : ((none : Option ℚ), ((none : Option ℚ), (none : Option ℚ))) ∈
      scaleRFM cex8RFM := by decide
  rcases h _ hmem with ⟨q, hq, _⟩
  exact Option.noConfusion hq

/-- Witness for C8 (amended) on the non-constant column `[0, 1]`. -/
theorem C8_witness :
    (minMaxScale [0, 1])[1]? =
      some (some ((1 - colMin [0, 1]) / (colMax [0, 1] - colMin [0, 1]))) ∧
    0 ≤ (1 - colMin [0, 1]) / (colMax [0, 1] - colMin [0, 1]) ∧
    (1 - colMin [0, 1]) / (colMax [0, 1] - colMin [0, 1]) ≤ 1 :=
  (C8_minmax_scaling cex8RFM [0, 1] 1 1 (by decide) (by decide)).2

end GrocerySales
